import Mathlib

/-!
# Verification of the ASG instance-refresh controller (`refresh.go`)

This file gives a shallow embedding of the refresh lifecycle controller of
the `aws-tools` repository: the initiator (`StartRefresh`), the inspector
(`DescribeRefresh`) and the waiter (`WaitForRefresh`), together with proofs
of the behavioural properties stated in the specification.

Modelling conventions:
* Go errors are modelled as `String`s; `fmt.Errorf("...: %w", err)` wrapping
  becomes string concatenation of the context prefix with the wrapped text.
* The remote AWS API is modelled by response functions supplied as
  parameters: `StartRefresh` receives a function from the outgoing request
  to the remote response, and the waiter's environment carries one remote
  `DescribeInstanceRefreshes` response per poll index.
* `time.Duration` values are modelled as natural numbers of nanoseconds
  (`time.Since` of a past instant is non-negative under Go's monotonic
  clock).  `time.Since(start)` at the k-th timeout check of the loop is
  the environment function `elapsedAt k`.
* The unbounded `for` loop of `WaitForRefresh` is modelled with explicit
  fuel; `none` means the fuel ran out with the loop still polling.
* Go pointer-typed optional fields (`*int32`, `*string`, `*bool`) become
  `Option` fields; a nil pointer is `none`.
-/

/-- Model of `types.InstanceRefresh` (the fields this tool reads):
`Status` (a string-typed enum), `InstanceRefreshId` (`*string`) and
`PercentageComplete` (`*int32`). -/
structure InstanceRefresh where
  Status : String
  InstanceRefreshId : Option String
  PercentageComplete : Option Int
deriving DecidableEq, Repr

/-- `terminalStates` from `refresh.go`: the Go map lookup
`terminalStates[s]` returns `true` exactly for the five listed statuses and
`false` (the map's zero value) for every other string. -/
def terminalStates (s : String) : Bool :=
  s == "Successful" || s == "Failed" || s == "Cancelled" ||
  s == "RollbackSuccessful" || s == "RollbackFailed"

/-- `DescribeRefresh` from `refresh.go`, as a function of the remote
`DescribeInstanceRefreshes` response (`.error e` models a failed remote
call, `.ok rs` a successful one returning the record list `rs`):
an error is wrapped with the `describe instance refresh: ` context;
zero records yield `none` (Go `nil, nil`); otherwise the first record is
returned. -/
def DescribeRefresh (apiResp : Except String (List InstanceRefresh)) :
    Except String (Option InstanceRefresh) :=
  match apiResp with
  | .error e => .error ("describe instance refresh: " ++ e)
  | .ok out =>
    match out with
    | [] => .ok none
    | r :: _ => .ok (some r)

/-- Rounding of `timeout.Seconds()` under the `%.0f` format verb:
round to the nearest integer, ties to even (Go formats the float with
`strconv`, which rounds to nearest/even; representation error of the
float division by 1e9 is not modelled). -/
def roundSecs (ns : Nat) : Nat :=
  let q := ns / 1000000000
  let r := ns % 1000000000
  if 2 * r < 1000000000 then q
  else if 2 * r > 1000000000 then q + 1
  else if q % 2 = 0 then q else q + 1

/-- The two error shapes `WaitForRefresh` can return: a `DescribeRefresh`
error passed through unchanged (its payload is the already-wrapped
message), or the timeout error built from the configured timeout and the
refresh identifier. -/
inductive WErr where
  | describeFailed (msg : String)
  | timedOut (timeoutNs : Nat) (refreshID : String)
deriving DecidableEq, Repr

/-- The rendered Go error text: a describe failure carries its own text;
the timeout error is
`fmt.Errorf("timed out after %.0fs waiting for refresh %s", timeout.Seconds(), refreshID)`. -/
def WErr.message : WErr → String
  | .describeFailed m => m
  | .timedOut ns rid =>
    "timed out after " ++ toString (roundSecs ns) ++ "s waiting for refresh " ++ rid

/-- The environment of one `WaitForRefresh` invocation: the remote
`DescribeInstanceRefreshes` response for the k-th poll, the value of
`time.Since(start)` (ns) at the k-th timeout check, the configured
`timeout` (ns), the refresh identifier, and whether a non-nil
`statusCallback` was supplied. -/
structure WaitEnv where
  polls : Nat → Except String (List InstanceRefresh)
  elapsedAt : Nat → Nat
  timeout : Nat
  refreshID : String
  hasCallback : Bool

instance {ε α : Type} [DecidableEq ε] [DecidableEq α] : DecidableEq (Except ε α) :=
  fun a b =>
    match a, b with
    | .error e, .error f =>
      if h : e = f then .isTrue (by rw [h])
      else .isFalse (by intro hc; cases hc; exact h rfl)
    | .error _, .ok _ => .isFalse (by intro hc; cases hc)
    | .ok _, .error _ => .isFalse (by intro hc; cases hc)
    | .ok x, .ok y =>
      if h : x = y then .isTrue (by rw [h])
      else .isFalse (by intro hc; cases hc; exact h rfl)

/-- The observable outcome of a `WaitForRefresh` run: the returned value
or error, the number of `DescribeRefresh` calls made, the snapshots passed
to the status callback in order, and the number of `r.sleep` calls. -/
structure WaitResult where
  outcome : Except WErr InstanceRefresh
  pollCount : Nat
  callbacks : List InstanceRefresh
  sleepCount : Nat
deriving DecidableEq, Repr

/-- The snapshots handed to the callback by one poll: Go calls
`statusCallback(result)` exactly when `result != nil` and the callback is
non-nil. -/
def cbList (hasCallback : Bool) (res : Option InstanceRefresh) :
    List InstanceRefresh :=
  match res, hasCallback with
  | some r, true => [r]
  | _, _ => []

/-- Accounting for one non-returning loop iteration: it contributed one
poll, its callback invocations, and the `r.sleep(interval)` call executed
before re-entering the loop. -/
def addStep (cbs : List InstanceRefresh) (w : WaitResult) : WaitResult :=
  { w with
    pollCount := w.pollCount + 1
    callbacks := cbs ++ w.callbacks
    sleepCount := w.sleepCount + 1 }

/-- The `for` loop of `WaitForRefresh` from iteration `k` on, with fuel.
Each iteration mirrors the Go body in order: call `DescribeRefresh` and
abort on error; on a present snapshot invoke the callback and return the
snapshot if its status is terminal; otherwise compare
`time.Since(start)` against `timeout` and abort on timeout; otherwise
sleep and loop. -/
def waitFrom (env : WaitEnv) : Nat → Nat → Option WaitResult
  | _, 0 => none
  | k, fuel + 1 =>
    match DescribeRefresh (env.polls k) with
    | .error e =>
      some { outcome := .error (.describeFailed e), pollCount := 1,
             callbacks := [], sleepCount := 0 }
    | .ok res =>
      let cbs := cbList env.hasCallback res
      let cont : Option WaitResult :=
        if env.elapsedAt k ≥ env.timeout then
          some { outcome := .error (.timedOut env.timeout env.refreshID),
                 pollCount := 1, callbacks := cbs, sleepCount := 0 }
        else
          (waitFrom env (k + 1) fuel).map (addStep cbs)
      match res with
      | some r =>
        if terminalStates r.Status then
          some { outcome := .ok r, pollCount := 1, callbacks := cbs,
                 sleepCount := 0 }
        else cont
      | none => cont

/-- `WaitForRefresh` from `refresh.go`: record the start time (elapsed
times are measured from it by `env.elapsedAt`) and run the loop from its
first iteration. -/
def WaitForRefresh (env : WaitEnv) (fuel : Nat) : Option WaitResult :=
  waitFrom env 0 fuel

/-- `RefreshOptions` from `refresh.go`: `MinHealthyPercentage` is a Go
`int` (64-bit), the two pointer fields are optional `int32` values, and
`SkipMatching` is a `bool`. -/
structure RefreshOptions where
  MinHealthyPercentage : Int
  MaxHealthyPercentage : Option Int
  InstanceWarmup : Option Int
  SkipMatching : Bool
deriving DecidableEq, Repr

/-- Model of `types.RefreshPreferences` (the fields this tool writes);
every field is pointer-typed in the SDK, so each is an `Option`, `none`
meaning the field is omitted from the outgoing request. -/
structure RefreshPreferences where
  MinHealthyPercentage : Option Int
  SkipMatching : Option Bool
  InstanceWarmup : Option Int
  MaxHealthyPercentage : Option Int
deriving DecidableEq, Repr

/-- The Go conversion `int32(n)` on a 64-bit `int`: two's-complement
truncation to 32 bits. -/
def toInt32 (n : Int) : Int := (n + 2 ^ 31) % 2 ^ 32 - 2 ^ 31

/-- The preference construction of `StartRefresh`: the struct literal sets
`MinHealthyPercentage` (through `aws.Int32(int32(...))`) and
`SkipMatching` (through `aws.Bool`); the two `if` statements copy
`InstanceWarmup` and `MaxHealthyPercentage` only when the caller supplied
a non-nil pointer. -/
def buildPreferences (opts : RefreshOptions) : RefreshPreferences :=
  let prefs : RefreshPreferences :=
    { MinHealthyPercentage := some (toInt32 opts.MinHealthyPercentage)
      SkipMatching := some opts.SkipMatching
      InstanceWarmup := none
      MaxHealthyPercentage := none }
  let prefs :=
    match opts.InstanceWarmup with
    | some w => { prefs with InstanceWarmup := some w }
    | none => prefs
  match opts.MaxHealthyPercentage with
  | some m => { prefs with MaxHealthyPercentage := some m }
  | none => prefs

/-- Model of `autoscaling.StartInstanceRefreshInput` (the fields this tool
writes). `Strategy` is the string-typed `types.RefreshStrategy`;
`types.RefreshStrategyRolling = "Rolling"`. -/
structure StartInstanceRefreshInput where
  AutoScalingGroupName : Option String
  Strategy : String
  Preferences : Option RefreshPreferences
deriving DecidableEq, Repr

/-- Model of `autoscaling.StartInstanceRefreshOutput` (the field this tool
reads). -/
structure StartInstanceRefreshOutput where
  InstanceRefreshId : Option String
deriving DecidableEq, Repr

/-- `StartResult` from `refresh.go`. -/
structure StartResult where
  InstanceRefreshId : String
  AutoScalingGroupName : String
deriving DecidableEq, Repr

/-- A `StartRefresh` execution: the remote calls it issued (in order) and
what it returned. -/
structure StartExec where
  requests : List StartInstanceRefreshInput
  result : Except String StartResult
deriving DecidableEq, Repr

/-- The single request `StartRefresh` builds: the ASG name, the constant
`types.RefreshStrategyRolling` strategy, and the constructed
preferences. -/
def startInput (asgName : String) (opts : RefreshOptions) :
    StartInstanceRefreshInput :=
  { AutoScalingGroupName := some asgName
    Strategy := "Rolling"
    Preferences := some (buildPreferences opts) }

/-- `StartRefresh` from `refresh.go`, as a function of the remote
`StartInstanceRefresh` behaviour `api`: it issues exactly the one request
`startInput asgName opts`; a remote error is wrapped with the
`start instance refresh: ` context and returned with no result; on
success the handle pairs `aws.ToString(out.InstanceRefreshId)` (nil maps
to `""`) with the caller's ASG name. -/
def StartRefresh (asgName : String) (opts : RefreshOptions)
    (api : StartInstanceRefreshInput → Except String StartInstanceRefreshOutput) :
    StartExec :=
  let input := startInput asgName opts
  match api input with
  | .error e =>
    { requests := [input], result := .error ("start instance refresh: " ++ e) }
  | .ok out =>
    { requests := [input]
      result := .ok { InstanceRefreshId := out.InstanceRefreshId.getD ""
                      AutoScalingGroupName := asgName } }

/-- The present snapshots among `n` successive polls starting at index
`k`, in poll order: the formalisation of "every polled present snapshot"
used by the callback-completeness claim. -/
def presentList (env : WaitEnv) (k : Nat) : Nat → List InstanceRefresh
  | 0 => []
  | n + 1 =>
    (match DescribeRefresh (env.polls k) with
     | .ok (some r) => [r]
     | _ => []) ++ presentList env (k + 1) n

/-! ## Concrete fixtures used by witnesses and counterexamples -/

/-- A snapshot in the terminal status `Successful`. -/
def snapOk : InstanceRefresh :=
  { Status := "Successful", InstanceRefreshId := some "r-1",
    PercentageComplete := some 100 }

/-- A snapshot in the non-terminal status `InProgress`. -/
def snapProg : InstanceRefresh :=
  { Status := "InProgress", InstanceRefreshId := some "r-1",
    PercentageComplete := some 40 }

/-- Every poll finds the refresh already `Successful`; generous timeout. -/
def envA : WaitEnv :=
  { polls := fun _ => .ok [snapOk], elapsedAt := fun _ => 0,
    timeout := 60000000000, refreshID := "r-1", hasCallback := true }

/-- Every poll sees `InProgress`; the timeout is zero. -/
def envB : WaitEnv :=
  { polls := fun _ => .ok [snapProg], elapsedAt := fun _ => 0, timeout := 0,
    refreshID := "r-1", hasCallback := true }

/-- Every poll sees `InProgress`; one second has elapsed of a one-minute
timeout. -/
def envC : WaitEnv :=
  { polls := fun _ => .ok [snapProg], elapsedAt := fun _ => 1000000000,
    timeout := 60000000000, refreshID := "r-1", hasCallback := true }

/-- Every poll sees the terminal snapshot, but 99 s have elapsed of a 5 s
timeout. -/
def envD : WaitEnv :=
  { polls := fun _ => .ok [snapOk], elapsedAt := fun _ => 99000000000,
    timeout := 5000000000, refreshID := "r-1", hasCallback := true }

/-- Every remote describe call fails. -/
def envE : WaitEnv :=
  { polls := fun _ => .error "boom", elapsedAt := fun _ => 0,
    timeout := 60000000000, refreshID := "r-1", hasCallback := true }

/-- Every poll returns zero records; 7 s have elapsed of a 5 s timeout. -/
def envF : WaitEnv :=
  { polls := fun _ => .ok [], elapsedAt := fun _ => 7000000000,
    timeout := 5000000000, refreshID := "r-1", hasCallback := false }

/-- A remote start call that always succeeds with identifier `id-123`. -/
def apiOk : StartInstanceRefreshInput → Except String StartInstanceRefreshOutput :=
  fun _ => .ok { InstanceRefreshId := some "id-123" }

/-- A remote start call that always fails. -/
def apiBad : StartInstanceRefreshInput → Except String StartInstanceRefreshOutput :=
  fun _ => .error "denied"

/-- Options with both optional fields unset (spec example scenario A). -/
def opts90 : RefreshOptions :=
  { MinHealthyPercentage := 90, MaxHealthyPercentage := none,
    InstanceWarmup := none, SkipMatching := true }

/-- Options with both optional fields set. -/
def optsFull : RefreshOptions :=
  { MinHealthyPercentage := 90, MaxHealthyPercentage := some 110,
    InstanceWarmup := some 300, SkipMatching := true }

/-- Options whose `MinHealthyPercentage` (a 64-bit Go `int`) does not fit
in an `int32`. -/
def optsWrap : RefreshOptions :=
  { MinHealthyPercentage := 2147483648, MaxHealthyPercentage := none,
    InstanceWarmup := none, SkipMatching := false }

/-! ## Claim theorems -/

/-- Claim C1: a poll whose `DescribeRefresh` result is a present snapshot
with a terminal status makes the Waiter return that exact snapshot with no
error, after exactly this one Inspector call and zero sleeps — the loop
from iteration `k` performs no further polling whatever the remaining fuel
or the elapsed time. -/
theorem waiter_terminal_short_circuit (env : WaitEnv) (k fuel : Nat)
    (r : InstanceRefresh)
    (hres : DescribeRefresh (env.polls k) = .ok (some r))
    (hterm : terminalStates r.Status = true) :
    waitFrom env k (fuel + 1) =
      some { outcome := .ok r, pollCount := 1,
             callbacks := cbList env.hasCallback (some r), sleepCount := 0 } := by
  simp [waitFrom, hres, hterm]

/-- Witness for C1 at a concrete environment. -/
theorem waiter_terminal_short_circuit_witness :
    DescribeRefresh (envA.polls 0) = .ok (some snapOk) ∧
    terminalStates snapOk.Status = true ∧
    waitFrom envA 0 1 =
      some { outcome := .ok snapOk, pollCount := 1, callbacks := [snapOk],
             sleepCount := 0 } :=
  ⟨rfl, rfl, waiter_terminal_short_circuit envA 0 0 snapOk rfl rfl⟩

/-- Claim C2: with `timeout = 0`, a first poll that yields an absent or
non-terminal snapshot makes the Waiter return the timeout error after
exactly one poll and zero sleeps — the elapsed-vs-timeout check runs after
the poll, and `time.Since(start) ≥ 0` always holds. -/
theorem waiter_zero_timeout_one_poll (env : WaitEnv) (fuel : Nat)
    (res : Option InstanceRefresh)
    (hres : DescribeRefresh (env.polls 0) = .ok res)
    (hnt : ∀ r, res = some r → terminalStates r.Status = false)
    (ht : env.timeout = 0) :
    WaitForRefresh env (fuel + 1) =
      some { outcome := .error (.timedOut 0 env.refreshID), pollCount := 1,
             callbacks := cbList env.hasCallback res, sleepCount := 0 } := by
  unfold WaitForRefresh
  cases res with
  | none => simp [waitFrom, hres, ht]
  | some r => simp [waitFrom, hres, ht, hnt r rfl]

/-- Witness for C2 at a concrete environment. -/
theorem waiter_zero_timeout_one_poll_witness :
    DescribeRefresh (envB.polls 0) = .ok (some snapProg) ∧
    terminalStates snapProg.Status = false ∧ envB.timeout = 0 ∧
    WaitForRefresh envB 1 =
      some { outcome := .error (.timedOut 0 "r-1"), pollCount := 1,
             callbacks := [snapProg], sleepCount := 0 } :=
  ⟨rfl, rfl, rfl,
   waiter_zero_timeout_one_poll envB 0 (some snapProg) rfl
     (fun r hr => by cases hr; rfl) rfl⟩

/-- Claim C4: a poll whose remote describe call fails makes the Waiter
abort at once with the Inspector's wrapped error and a `nil` snapshot:
exactly this one Inspector call, no callback invocation, no sleep, no
further polling. -/
theorem waiter_propagates_inspector_error (env : WaitEnv) (k fuel : Nat)
    (e : String) (herr : env.polls k = .error e) :
    waitFrom env k (fuel + 1) =
      some { outcome :=
               .error (.describeFailed ("describe instance refresh: " ++ e)),
             pollCount := 1, callbacks := [], sleepCount := 0 } := by
  simp [waitFrom, DescribeRefresh, herr]

/-- Witness for C4 at a concrete environment. -/
theorem waiter_propagates_inspector_error_witness :
    envE.polls 0 = .error "boom" ∧
    waitFrom envE 0 1 =
      some { outcome :=
               .error (.describeFailed "describe instance refresh: boom"),
             pollCount := 1, callbacks := [], sleepCount := 0 } :=
  ⟨rfl, waiter_propagates_inspector_error envE 0 0 "boom" rfl⟩

/-- Claim C5: a successful remote describe with zero matching records
yields `none` (absent) with no error, and with at least one record yields
the first record with no error — `DescribeRefresh` is total, so no crash
is possible. -/
theorem describe_absent_not_error :
    DescribeRefresh (.ok []) = .ok none ∧
    ∀ (r : InstanceRefresh) (rs : List InstanceRefresh),
      DescribeRefresh (.ok (r :: rs)) = .ok (some r) :=
  ⟨rfl, fun _ _ => rfl⟩

/-! ## Step lemmas for the waiter loop -/

/-- One loop iteration, inspector-error case. -/
theorem waitFrom_step_error (env : WaitEnv) (k fuel : Nat) (e : String)
    (hD : DescribeRefresh (env.polls k) = .error e) :
    waitFrom env k (fuel + 1) =
      some { outcome := .error (.describeFailed e), pollCount := 1,
             callbacks := [], sleepCount := 0 } := by
  simp [waitFrom, hD]

/-- One loop iteration, terminal-snapshot case. -/
theorem waitFrom_step_terminal (env : WaitEnv) (k fuel : Nat)
    (r : InstanceRefresh) (hD : DescribeRefresh (env.polls k) = .ok (some r))
    (ht : terminalStates r.Status = true) :
    waitFrom env k (fuel + 1) =
      some { outcome := .ok r, pollCount := 1,
             callbacks := cbList env.hasCallback (some r), sleepCount := 0 } := by
  simp [waitFrom, hD, ht]

/-- One loop iteration, non-terminal case with the timeout reached. -/
theorem waitFrom_step_timeout (env : WaitEnv) (k fuel : Nat)
    (res : Option InstanceRefresh) (hD : DescribeRefresh (env.polls k) = .ok res)
    (hnt : ∀ r, res = some r → terminalStates r.Status = false)
    (hto : env.elapsedAt k ≥ env.timeout) :
    waitFrom env k (fuel + 1) =
      some { outcome := .error (.timedOut env.timeout env.refreshID),
             pollCount := 1, callbacks := cbList env.hasCallback res,
             sleepCount := 0 } := by
  cases res with
  | none => simp [waitFrom, hD, hto]
  | some r => simp [waitFrom, hD, hto, hnt r rfl]

/-- One loop iteration, non-terminal case with time remaining: sleep and
re-enter the loop at the next poll index. -/
theorem waitFrom_step_continue (env : WaitEnv) (k fuel : Nat)
    (res : Option InstanceRefresh) (hD : DescribeRefresh (env.polls k) = .ok res)
    (hnt : ∀ r, res = some r → terminalStates r.Status = false)
    (hlt : env.elapsedAt k < env.timeout) :
    waitFrom env k (fuel + 1) =
      (waitFrom env (k + 1) fuel).map (addStep (cbList env.hasCallback res)) := by
  cases res with
  | none => simp [waitFrom, hD, Nat.not_le.mpr hlt]
  | some r => simp [waitFrom, hD, Nat.not_le.mpr hlt, hnt r rfl]

/-- A completed waiter run made at least one poll. -/
theorem waitFrom_pollCount_pos (env : WaitEnv) (k fuel : Nat) (w : WaitResult)
    (hw : waitFrom env k fuel = some w) : 1 ≤ w.pollCount := by
  induction fuel generalizing k w with
  | zero => simp [waitFrom] at hw
  | succ fuel ih =>
    rcases hD : DescribeRefresh (env.polls k) with e | res
    · rw [waitFrom_step_error env k fuel e hD] at hw
      cases hw; simp
    · by_cases hterm : ∃ r, res = some r ∧ terminalStates r.Status = true
      · obtain ⟨r, rfl, ht⟩ := hterm
        rw [waitFrom_step_terminal env k fuel r hD ht] at hw
        cases hw; simp
      · have hnt : ∀ r, res = some r → terminalStates r.Status = false := by
          intro r hr
          by_contra hc
          exact hterm ⟨r, hr, by simpa using hc⟩
        by_cases hto : env.elapsedAt k ≥ env.timeout
        · rw [waitFrom_step_timeout env k fuel res hD hnt hto] at hw
          cases hw; simp
        · rw [waitFrom_step_continue env k fuel res hD hnt (Nat.lt_of_not_le hto)] at hw
          rw [Option.map_eq_some'] at hw
          obtain ⟨w', hw', rfl⟩ := hw
          simp [addStep]

/-- `addStep` bookkeeping does not change the returned outcome. -/
theorem addStep_outcome (cbs : List InstanceRefresh) (w : WaitResult) :
    (addStep cbs w).outcome = w.outcome := rfl

/-- Provenance of a timeout error: it carries exactly the configured
timeout and the watched refresh identifier, and the poll that triggered it
observed a successfully described absent-or-non-terminal snapshot with the
elapsed time at or past the timeout. -/
theorem timeout_only_from_nonterminal (env : WaitEnv) (k fuel : Nat)
    (w : WaitResult) (t : Nat) (rid : String)
    (hw : waitFrom env k fuel = some w)
    (hout : w.outcome = .error (.timedOut t rid)) :
    t = env.timeout ∧ rid = env.refreshID ∧
    ∃ res, DescribeRefresh (env.polls (k + (w.pollCount - 1))) = .ok res ∧
      env.elapsedAt (k + (w.pollCount - 1)) ≥ env.timeout ∧
      ∀ r, res = some r → terminalStates r.Status = false := by
  induction fuel generalizing k w with
  | zero => simp [waitFrom] at hw
  | succ fuel ih =>
    rcases hD : DescribeRefresh (env.polls k) with e | res
    · rw [waitFrom_step_error env k fuel e hD] at hw
      cases hw
      simp at hout
    · by_cases hterm : ∃ r, res = some r ∧ terminalStates r.Status = true
      · obtain ⟨r, rfl, ht⟩ := hterm
        rw [waitFrom_step_terminal env k fuel r hD ht] at hw
        cases hw
        simp at hout
      · have hnt : ∀ r, res = some r → terminalStates r.Status = false := by
          intro r hr
          by_contra hc
          exact hterm ⟨r, hr, by simpa using hc⟩
        by_cases hto : env.elapsedAt k ≥ env.timeout
        · rw [waitFrom_step_timeout env k fuel res hD hnt hto] at hw
          cases hw
          obtain ⟨ht', hrid⟩ :=
            (by simpa using hout : env.timeout = t ∧ env.refreshID = rid)
          exact ⟨ht'.symm, hrid.symm, res, by simpa using hD, by simpa using hto, hnt⟩
        · rw [waitFrom_step_continue env k fuel res hD hnt (Nat.lt_of_not_le hto)] at hw
          rw [Option.map_eq_some'] at hw
          obtain ⟨w', hw', rfl⟩ := hw
          have hpos := waitFrom_pollCount_pos env (k + 1) fuel w' hw'
          have hout' : w'.outcome = .error (.timedOut t rid) := by
            rw [← addStep_outcome (cbList env.hasCallback res) w']; exact hout
          obtain ⟨h1, h2, res', hres', helap', hnt'⟩ := ih (k + 1) w' hw' hout'
          have hidx : k + ((addStep (cbList env.hasCallback res) w').pollCount - 1)
              = k + 1 + (w'.pollCount - 1) := by
            simp [addStep]; omega
          refine ⟨h1, h2, res', ?_, ?_, hnt'⟩
          · rw [hidx]; exact hres'
          · rw [hidx]; exact helap'

/-- The one request a `StartRefresh` execution issues. -/
theorem startRefresh_requests (asgName : String) (opts : RefreshOptions)
    (api : StartInstanceRefreshInput → Except String StartInstanceRefreshOutput) :
    (StartRefresh asgName opts api).requests = [startInput asgName opts] := by
  simp only [StartRefresh]
  cases hc : api (startInput asgName opts) <;> simp [hc]

/-- Closed form of the constructed preferences. -/
theorem buildPreferences_eq (opts : RefreshOptions) :
    buildPreferences opts =
      { MinHealthyPercentage := some (toInt32 opts.MinHealthyPercentage)
        SkipMatching := some opts.SkipMatching
        InstanceWarmup := opts.InstanceWarmup
        MaxHealthyPercentage := opts.MaxHealthyPercentage } := by
  obtain ⟨minp, maxp, warm, skip⟩ := opts
  rcases warm with _ | w <;> rcases maxp with _ | m <;> rfl

/-- First poll sees `InProgress`, second sees `Successful` (the spec's
scenario B shape), with ample timeout. -/
def envG : WaitEnv :=
  { polls := fun k => if k = 0 then .ok [snapProg] else .ok [snapOk]
    elapsedAt := fun _ => 1000000000, timeout := 60000000000,
    refreshID := "r-1", hasCallback := true }

/-- The run of `envG`: two polls, both snapshots observed, one sleep. -/
def wG : WaitResult :=
  { outcome := .ok snapOk, pollCount := 2, callbacks := [snapProg, snapOk],
    sleepCount := 1 }

/-- The run of `envB`: one poll, immediate zero-timeout abort. -/
def wB : WaitResult :=
  { outcome := .error (.timedOut 0 "r-1"), pollCount := 1,
    callbacks := [snapProg], sleepCount := 0 }

/-- The run of `envF`: one absent poll, then the 5 s timeout fires. -/
def wF : WaitResult :=
  { outcome := .error (.timedOut 5000000000 "r-1"), pollCount := 1,
    callbacks := [], sleepCount := 0 }

/-- Claim C6: over any completed waiter run, the status callback is
invoked exactly on the polls whose `DescribeRefresh` result is a present
snapshot — including a final terminal poll — in poll order, and never on
absent or failed polls; with a nil callback it is never invoked. -/
theorem waiter_callback_completeness (env : WaitEnv) (k fuel : Nat)
    (w : WaitResult) (hw : waitFrom env k fuel = some w) :
    w.callbacks =
      if env.hasCallback then presentList env k w.pollCount else [] := by
  induction fuel generalizing k w with
  | zero => simp [waitFrom] at hw
  | succ fuel ih =>
    rcases hD : DescribeRefresh (env.polls k) with e | res
    · rw [waitFrom_step_error env k fuel e hD] at hw
      cases hw
      simp [presentList, hD]
    · by_cases hterm : ∃ r, res = some r ∧ terminalStates r.Status = true
      · obtain ⟨r, rfl, ht⟩ := hterm
        rw [waitFrom_step_terminal env k fuel r hD ht] at hw
        cases hw
        cases hcb : env.hasCallback <;> simp [presentList, hD, cbList, hcb]
      · have hnt : ∀ r, res = some r → terminalStates r.Status = false := by
          intro r hr
          by_contra hc
          exact hterm ⟨r, hr, by simpa using hc⟩
        by_cases hto : env.elapsedAt k ≥ env.timeout
        · rw [waitFrom_step_timeout env k fuel res hD hnt hto] at hw
          cases hw
          rcases res with _ | r <;>
            cases hcb : env.hasCallback <;> simp [presentList, hD, cbList, hcb]
        · rw [waitFrom_step_continue env k fuel res hD hnt (Nat.lt_of_not_le hto)] at hw
          rw [Option.map_eq_some'] at hw
          obtain ⟨w', hw', rfl⟩ := hw
          have hcb' := ih (k + 1) w' hw'
          rcases res with _ | r <;>
            cases hcb : env.hasCallback <;>
              simp [addStep, presentList, hD, cbList, hcb, hcb']

/-- Witness for C6 on the two-poll run of `envG`. -/
theorem waiter_callback_completeness_witness :
    waitFrom envG 0 2 = some wG ∧
    wG.callbacks =
      if envG.hasCallback then presentList envG 0 wG.pollCount else [] :=
  ⟨rfl, waiter_callback_completeness envG 0 2 wG rfl⟩

/-- Claim C7: the terminal set is exactly the five listed statuses — every
other status string classifies as non-terminal — and a present
non-terminal snapshot (with time remaining) makes the loop sleep and poll
again instead of returning. -/
theorem terminal_status_set_exact :
    (∀ s : String, terminalStates s = true ↔
      (s = "Successful" ∨ s = "Failed" ∨ s = "Cancelled" ∨
       s = "RollbackSuccessful" ∨ s = "RollbackFailed")) ∧
    (∀ (env : WaitEnv) (k fuel : Nat) (r : InstanceRefresh),
      DescribeRefresh (env.polls k) = .ok (some r) →
      terminalStates r.Status = false →
      env.elapsedAt k < env.timeout →
      waitFrom env k (fuel + 1) =
        (waitFrom env (k + 1) fuel).map
          (addStep (cbList env.hasCallback (some r)))) := by
  constructor
  · intro s
    simp only [terminalStates, Bool.or_eq_true, beq_iff_eq]
    tauto
  · intro env k fuel r hD hnt hlt
    exact waitFrom_step_continue env k fuel (some r) hD
      (fun r' hr => by cases hr; exact hnt) hlt

/-- Witness for C7: membership at one terminal and one unrecognized
status, and the continue behaviour at `envC`. -/
theorem terminal_status_set_exact_witness :
    (terminalStates "RollbackFailed" = true ↔
      ("RollbackFailed" = "Successful" ∨ "RollbackFailed" = "Failed" ∨
       "RollbackFailed" = "Cancelled" ∨
       "RollbackFailed" = "RollbackSuccessful" ∨
       "RollbackFailed" = "RollbackFailed")) ∧
    (terminalStates "Baking" = true ↔
      ("Baking" = "Successful" ∨ "Baking" = "Failed" ∨
       "Baking" = "Cancelled" ∨ "Baking" = "RollbackSuccessful" ∨
       "Baking" = "RollbackFailed")) ∧
    waitFrom envC 0 1 =
      (waitFrom envC 1 0).map (addStep [snapProg]) :=
  ⟨terminal_status_set_exact.1 "RollbackFailed",
   terminal_status_set_exact.1 "Baking",
   terminal_status_set_exact.2 envC 0 0 snapProg rfl rfl (by decide)⟩

/-- Claim C10: within one iteration the terminal check precedes the
timeout check, so a terminal poll returns its snapshot with no error even
when the elapsed time already reached the timeout; and a timeout error can
only arise from a poll that observed an absent or non-terminal
snapshot. -/
theorem terminal_precedes_timeout :
    (∀ (env : WaitEnv) (k fuel : Nat) (r : InstanceRefresh),
      DescribeRefresh (env.polls k) = .ok (some r) →
      terminalStates r.Status = true →
      env.elapsedAt k ≥ env.timeout →
      waitFrom env k (fuel + 1) =
        some { outcome := .ok r, pollCount := 1,
               callbacks := cbList env.hasCallback (some r),
               sleepCount := 0 }) ∧
    (∀ (env : WaitEnv) (k fuel : Nat) (w : WaitResult) (t : Nat)
       (rid : String),
      waitFrom env k fuel = some w →
      w.outcome = .error (.timedOut t rid) →
      ∃ res, DescribeRefresh (env.polls (k + (w.pollCount - 1))) = .ok res ∧
        ∀ r, res = some r → terminalStates r.Status = false) := by
  constructor
  · intro env k fuel r hD ht _
    exact waitFrom_step_terminal env k fuel r hD ht
  · intro env k fuel w t rid hw hout
    obtain ⟨_, _, res, hres, _, hnt⟩ :=
      timeout_only_from_nonterminal env k fuel w t rid hw hout
    exact ⟨res, hres, hnt⟩

/-- Witness for C10: at `envD` the elapsed time (99 s) already exceeds the
5 s timeout, yet the terminal poll returns the snapshot; at `envB` the
timeout error came from a poll that saw a non-terminal snapshot. -/
theorem terminal_precedes_timeout_witness :
    (envD.elapsedAt 0 ≥ envD.timeout ∧
     waitFrom envD 0 1 =
       some { outcome := .ok snapOk, pollCount := 1, callbacks := [snapOk],
              sleepCount := 0 }) ∧
    (∃ res, DescribeRefresh (envB.polls (0 + (wB.pollCount - 1))) = .ok res ∧
      ∀ r, res = some r → terminalStates r.Status = false) :=
  ⟨⟨by decide, terminal_precedes_timeout.1 envD 0 0 snapOk rfl rfl (by decide)⟩,
   terminal_precedes_timeout.2 envB 0 1 wB 0 "r-1" rfl rfl⟩

/-- Counterexample to claim C8 as stated: at `envF` the loop aborts with
7 s elapsed of a 5 s timeout, yet the error text renders the configured
timeout ("5s") and contains no digit 7 at all, so it does not name the
elapsed duration. -/
theorem timeout_error_elapsed_counterexample :
    WaitForRefresh envF 1 = some wF ∧
    envF.elapsedAt 0 = 7000000000 ∧ roundSecs 7000000000 = 7 ∧
    wF.outcome = .error (.timedOut 5000000000 "r-1") ∧
    (WErr.timedOut 5000000000 "r-1").message =
      "timed out after 5s waiting for refresh r-1" ∧
    ("timed out after 5s waiting for refresh r-1".data.contains '7') = false :=
  ⟨rfl, rfl, rfl, rfl, rfl, by decide⟩

/-- Claim C8 (amended): whenever the Waiter aborts due to timeout, the
returned error names the configured timeout duration (rounded to whole
seconds by the `%.0f` verb) and the refresh identifier being watched. -/
theorem timeout_error_names_config_timeout (env : WaitEnv) (k fuel : Nat)
    (w : WaitResult) (t : Nat) (rid : String)
    (hw : waitFrom env k fuel = some w)
    (hout : w.outcome = .error (.timedOut t rid)) :
    t = env.timeout ∧ rid = env.refreshID ∧
    (WErr.timedOut t rid).message =
      "timed out after " ++ toString (roundSecs env.timeout) ++
        "s waiting for refresh " ++ env.refreshID := by
  obtain ⟨h1, h2, -⟩ :=
    timeout_only_from_nonterminal env k fuel w t rid hw hout
  subst h1; subst h2
  exact ⟨rfl, rfl, rfl⟩

/-- Witness for the amended C8 on the run of `envF`. -/
theorem timeout_error_names_config_timeout_witness :
    waitFrom envF 0 1 = some wF ∧
    (5000000000 = envF.timeout ∧ "r-1" = envF.refreshID ∧
     (WErr.timedOut 5000000000 "r-1").message =
       "timed out after " ++ toString (roundSecs envF.timeout) ++
         "s waiting for refresh " ++ envF.refreshID) :=
  ⟨rfl, timeout_error_names_config_timeout envF 0 1 wF 5000000000 "r-1" rfl rfl⟩

/-- Claim C9: `StartRefresh` issues exactly one remote call, whose
strategy is always `Rolling`; on remote success it returns the handle
pairing the remote-assigned identifier with the caller's ASG name; on
remote failure it returns the wrapped cause and no handle, with no
retry (still exactly the one request). -/
theorem start_refresh_contract (asgName : String) (opts : RefreshOptions)
    (api : StartInstanceRefreshInput → Except String StartInstanceRefreshOutput) :
    (StartRefresh asgName opts api).requests = [startInput asgName opts] ∧
    (startInput asgName opts).Strategy = "Rolling" ∧
    (∀ out, api (startInput asgName opts) = .ok out →
      (StartRefresh asgName opts api).result =
        .ok { InstanceRefreshId := out.InstanceRefreshId.getD ""
              AutoScalingGroupName := asgName }) ∧
    (∀ e, api (startInput asgName opts) = .error e →
      (StartRefresh asgName opts api).result =
        .error ("start instance refresh: " ++ e)) := by
  refine ⟨startRefresh_requests asgName opts api, rfl, ?_, ?_⟩
  · intro out hok
    simp [StartRefresh, hok]
  · intro e herr
    simp [StartRefresh, herr]

/-- Witness for C9 with one succeeding and one failing remote call. -/
theorem start_refresh_contract_witness :
    (StartRefresh "my-asg" opts90 apiOk).requests =
      [startInput "my-asg" opts90] ∧
    (StartRefresh "my-asg" opts90 apiOk).result =
      .ok { InstanceRefreshId := "id-123", AutoScalingGroupName := "my-asg" } ∧
    (StartRefresh "my-asg" opts90 apiBad).result =
      .error ("start instance refresh: " ++ "denied") :=
  ⟨(start_refresh_contract "my-asg" opts90 apiOk).1,
   (start_refresh_contract "my-asg" opts90 apiOk).2.2.1
     { InstanceRefreshId := some "id-123" } rfl,
   (start_refresh_contract "my-asg" opts90 apiBad).2.2.2 "denied" rfl⟩

/-- Counterexample to claim C3 as stated: with the (64-bit Go `int`)
input `MinHealthyPercentage = 2147483648 = 2^31`, the `int32` conversion
in the preference literal wraps, and the outgoing request carries
`-2147483648`, not the supplied value. -/
theorem minhealthy_wrap_counterexample :
    (StartRefresh "my-asg" optsWrap apiOk).requests =
      [{ AutoScalingGroupName := some "my-asg", Strategy := "Rolling",
         Preferences := some
           { MinHealthyPercentage := some (-2147483648)
             SkipMatching := some false
             InstanceWarmup := none
             MaxHealthyPercentage := none } }] ∧
    optsWrap.MinHealthyPercentage = 2147483648 ∧
    ((-2147483648 : Int) ≠ (2147483648 : Int)) :=
  ⟨rfl, rfl, by decide⟩

/-- Claim C3 (amended): the outgoing preferences always set
`MinHealthyPercentage` to the supplied value truncated to `int32`
(identical to the supplied value whenever it fits in `int32`, in
particular on the documented 0–100 range) and `SkipMatching` to exactly
the supplied flag; `InstanceWarmup` and `MaxHealthyPercentage` are
present if and only if the caller supplied them, carrying exactly the
supplied values, and are omitted entirely otherwise. -/
theorem start_preferences_characterization (asgName : String)
    (opts : RefreshOptions)
    (api : StartInstanceRefreshInput → Except String StartInstanceRefreshOutput) :
    (StartRefresh asgName opts api).requests =
      [{ AutoScalingGroupName := some asgName, Strategy := "Rolling",
         Preferences := some
           { MinHealthyPercentage := some (toInt32 opts.MinHealthyPercentage)
             SkipMatching := some opts.SkipMatching
             InstanceWarmup := opts.InstanceWarmup
             MaxHealthyPercentage := opts.MaxHealthyPercentage } }] ∧
    (∀ m : Int, -(2 ^ 31) ≤ m → m < 2 ^ 31 → toInt32 m = m) := by
  constructor
  · rw [startRefresh_requests asgName opts api]
    simp [startInput, buildPreferences_eq]
  · intro m h1 h2
    have h31 : (2 : Int) ^ 31 = 2147483648 := by norm_num
    have h32 : (2 : Int) ^ 32 = 4294967296 := by norm_num
    rw [h31] at h1 h2
    simp only [toInt32, h31, h32]
    omega

/-- Witness for the amended C3: the fully-populated options `optsFull`
produce exactly the expected request, and `toInt32` is the identity on
the in-range value 90. -/
theorem start_preferences_characterization_witness :
    (StartRefresh "my-asg" optsFull apiOk).requests =
      [{ AutoScalingGroupName := some "my-asg", Strategy := "Rolling",
         Preferences := some
           { MinHealthyPercentage := some (toInt32 90)
             SkipMatching := some true
             InstanceWarmup := some 300
             MaxHealthyPercentage := some 110 } }] ∧
    toInt32 90 = 90 :=
  ⟨(start_preferences_characterization "my-asg" optsFull apiOk).1,
   (start_preferences_characterization "my-asg" optsFull apiOk).2 90
     (by decide) (by decide)⟩
